import Mathlib

/-!
Shallow embedding of `kolibri/core/device/api.py`.

The file embeds the view handlers and the helper `map_status` of the
device API module. External collaborators (serializers, `get_free_space`,
`get_urls`, the ORM store) are passed in as explicit arguments or
modelled as explicit state, so each handler is a pure function from its
inputs and the store to a response and the resulting store.
Timestamps are modelled as integer seconds.
-/

/-- The four sync-status constants declared at module level in api.py
(`RECENTLY_SYNCED`, `SYNCING`, `QUEUED`, `NOT_RECENTLY_SYNCED`). -/
inductive SyncBucket where
  | RECENTLY_SYNCED
  | SYNCING
  | QUEUED
  | NOT_RECENTLY_SYNCED
  deriving DecidableEq, Repr

/-- A sync-status record as consumed by `map_status`: the `active` and
`queued` booleans and the optional `last_synced` timestamp (the Max
annotation over sync sessions, NULL when the user never synced).
Timestamps are integer seconds. -/
structure SyncStatusRecord where
  active : Bool
  queued : Bool
  last_synced : Option Int
  deriving DecidableEq, Repr

/-- `map_status` from api.py: `timezone.now()` is passed in as `now`
(integer seconds), and `timedelta(minutes=15)` is `15 * 60` seconds.
The Python function has no `else` on the outer chain, so it returns
`None` when `active` and `queued` are falsy and `last_synced` is None. -/
def map_status (now : Int) (s : SyncStatusRecord) : Option SyncBucket :=
  if s.active then
    some .SYNCING
  else if s.queued then
    some .QUEUED
  else
    match s.last_synced with
    | some t =>
      if now - t < 15 * 60 then some .RECENTLY_SYNCED
      else some .NOT_RECENTLY_SYNCED
    | none => none

/-- C1 counterexample: the record with `active = false`, `queued = false`
and `last_synced` unset is mapped to `none`, which is not one of the four
buckets, refuting the claim that `map_status` always returns one of
exactly four buckets. -/
theorem C1_counterexample :
    map_status 0 { active := false, queued := false, last_synced := none } = none := rfl

/-- C1 (amended): `map_status` returns one of the four buckets exactly when
`active` is true, `queued` is true, or `last_synced` is set; in the one
remaining case it returns no bucket. -/
theorem C1_map_status_buckets (now : Int) (s : SyncStatusRecord) :
    (map_status now s).isSome = (s.active || s.queued || s.last_synced.isSome) := by
  obtain ⟨a, q, l⟩ := s
  cases a <;> cases q <;> cases l <;> simp [map_status, apply_ite]

/-- C1 witness: evaluating the amended statement at a concrete record. -/
theorem C1_witness :
    (map_status 0 { active := true, queued := false, last_synced := none }).isSome
      = (true || false || (Option.none : Option Int).isSome) :=
  C1_map_status_buckets 0 { active := true, queued := false, last_synced := none }

/-- C2: `map_status` applies the precedence active > queued > last_synced:
`active` forces SYNCING, otherwise `queued` forces QUEUED, otherwise a set
`last_synced` yields RECENTLY_SYNCED exactly when strictly less than
15 minutes have elapsed and NOT_RECENTLY_SYNCED otherwise, and when all
three are unset/false the result is `none`. -/
theorem C2_map_status_precedence (now : Int) (s : SyncStatusRecord) :
    (s.active = true → map_status now s = some .SYNCING) ∧
    (s.active = false → s.queued = true → map_status now s = some .QUEUED) ∧
    (∀ t, s.active = false → s.queued = false → s.last_synced = some t →
      map_status now s
        = some (if now - t < 15 * 60 then .RECENTLY_SYNCED else .NOT_RECENTLY_SYNCED)) ∧
    (s.active = false → s.queued = false → s.last_synced = none →
      map_status now s = none) := by
  obtain ⟨a, q, l⟩ := s
  refine ⟨fun ha => ?_, fun ha hq => ?_, fun t ha hq hl => ?_, fun ha hq hl => ?_⟩
  · replace ha : a = true := ha
    subst ha
    rfl
  · replace ha : a = false := ha
    replace hq : q = true := hq
    subst ha; subst hq
    rfl
  · replace ha : a = false := ha
    replace hq : q = false := hq
    replace hl : l = some t := hl
    subst ha; subst hq; subst hl
    show (if now - t < 15 * 60 then some SyncBucket.RECENTLY_SYNCED
        else some SyncBucket.NOT_RECENTLY_SYNCED)
      = some (if now - t < 15 * 60 then .RECENTLY_SYNCED else .NOT_RECENTLY_SYNCED)
    exact (apply_ite some (now - t < 15 * 60) _ _).symm
  · replace ha : a = false := ha
    replace hq : q = false := hq
    replace hl : l = none := hl
    subst ha; subst hq; subst hl
    rfl

/-- C2 witness: the third clause evaluated at a concrete record synced
800 seconds before `now`, inside the 15-minute window. -/
theorem C2_witness :
    map_status 1000 { active := false, queued := false, last_synced := some 200 }
      = some (if (1000 - 200 : Int) < 15 * 60 then .RECENTLY_SYNCED else .NOT_RECENTLY_SYNCED) :=
  (C2_map_status_precedence 1000
    { active := false, queued := false, last_synced := some 200 }).2.2.1 200 rfl rfl rfl

/-- A framework response as the handlers produce it: either a DRF
`Response` with a status code and a body, or a Django
`HttpResponseBadRequest` carrying serializer errors. -/
inductive HttpResp (ε β : Type) where
  | response (code : Nat) (body : β)
  | badRequest (errors : ε)
  deriving DecidableEq, Repr

/-- One run of a DRF serializer bound to an instance and request data:
whether `is_valid()` holds, the `errors` exposed otherwise, the object
resulting from `save()`, and the serialized `data` rendered on success. -/
structure SerializerRun (σ ε δ : Type) where
  valid : Bool
  errors : ε
  saved : σ
  data : δ
  deriving DecidableEq, Repr

/-- `DeviceProvisionView.create`: the serializer validates the request
payload (`is_valid(raise_exception=True)` raises `e` when invalid, modelled
as `Except.error`), then `save` runs against the store `st` yielding the
new store and the saved data, which `serialize` renders into the 201 body. -/
def DeviceProvisionView.create {ε σ α δ : Type} (is_valid : Bool) (e : ε)
    (save : σ → σ × α) (serialize : α → δ) (st : σ) :
    Except ε (HttpResp ε δ × σ) :=
  if is_valid then
    let r := save st
    .ok (.response 201 (serialize r.2), r.1)
  else
    .error e

/-- `FreeSpaceView.list`: `get_free_space` is the external utility from
`kolibri.utils.system`; `none` stands for the zero-argument call (the
default location) and `some p` for `get_free_space(p)`. `CONTENT_DIR` is
`OPTIONS["Paths"]["CONTENT_DIR"]`. The body is the `{"freespace": free}`
mapping as an association list. -/
def FreeSpaceView.list (get_free_space : Option String → Int)
    (CONTENT_DIR : String) (path : Option String) : List (String × Int) :=
  match path with
  | none => [("freespace", get_free_space none)]
  | some p =>
    if p = "Content" then [("freespace", get_free_space (some CONTENT_DIR))]
    else [("freespace", get_free_space (some p))]

/-- Modelled from the spec: the `DeviceSettings` model itself lives outside
this excerpt (only api.py is in the source); the spec describes it as an
ordinary persisted record with simple scalar fields. Only `name` is touched
by the handlers here, so every other field is abstracted into `rest`. -/
structure DeviceSettings (ρ : Type) where
  name : String
  rest : ρ
  deriving DecidableEq, Repr

/-- `DeviceSettingsView.get`: reads the singleton `DeviceSettings` record
and returns its serialized form; the store is returned unchanged. -/
def DeviceSettingsView.get {ρ δ : Type} (serialize : DeviceSettings ρ → δ)
    (stored : DeviceSettings ρ) : HttpResp Empty δ × DeviceSettings ρ :=
  (.response 200 (serialize stored), stored)

/-- `DeviceSettingsView.patch`: binds the serializer to the stored record
and the request data (the bound run is `run`); on `is_valid()` failure it
returns `HttpResponseBadRequest(serializer.errors)` leaving the store as
it was, otherwise it saves and returns `Response(serializer.data)`. -/
def DeviceSettingsView.patch {ρ ε δ : Type}
    (run : SerializerRun (DeviceSettings ρ) ε δ) (stored : DeviceSettings ρ) :
    HttpResp ε δ × DeviceSettings ρ :=
  if run.valid then
    (.response 200 run.data, run.saved)
  else
    (.badRequest run.errors, stored)

/-- `DeviceNameView.get`: reads the singleton `DeviceSettings` record and
returns `{"name": settings.name}`; the store is returned unchanged. -/
def DeviceNameView.get {ρ : Type} (stored : DeviceSettings ρ) :
    List (String × String) × DeviceSettings ρ :=
  ([("name", stored.name)], stored)

/-- `DeviceNameView.patch`: `request.data` is an association list;
`request.data["name"]` raises KeyError (`Except.error ()`) when absent,
otherwise the name field is assigned, the record saved, and
`{"name": settings.name}` returned with the new store. -/
def DeviceNameView.patch {ρ : Type} (stored : DeviceSettings ρ)
    (data : List (String × String)) :
    Except Unit (List (String × String) × DeviceSettings ρ) :=
  match List.lookup "name" data with
  | none => .error ()
  | some n =>
    let s : DeviceSettings ρ := { stored with name := n }
    .ok ([("name", s.name)], s)

/-- A `DynamicNetworkLocation` record as filtered by
`UserSyncStatusViewSet.get_queryset`: only its `subset_of_users_device`
flag is consulted. -/
structure DynamicNetworkLocation where
  subset_of_users_device : Bool
  deriving DecidableEq, Repr

/-- `UserSyncStatusViewSet.get_queryset`: `subset_of_users_device` is the
resolved value of `get_device_setting("subset_of_users_device", False)`,
`locations` the `DynamicNetworkLocation` table and `all_statuses` the
`UserSyncStatus` table; the empty list models `UserSyncStatus.objects.none()`. -/
def UserSyncStatusViewSet.get_queryset {α : Type} (subset_of_users_device : Bool)
    (locations : List DynamicNetworkLocation) (all_statuses : List α) : List α :=
  if subset_of_users_device
      && !(locations.any fun l => l.subset_of_users_device == false) then
    []
  else
    all_statuses

/-- Substring occurrence on character lists: the Python `needle in hay`
membership test for strings. -/
def hasSubstr (needle : List Char) : List Char → Bool
  | [] => needle.isEmpty
  | c :: rest => needle.isPrefixOf (c :: rest) || hasSubstr needle rest

/-- `needle in hay` for Lean strings. -/
def strContains (hay needle : String) : Bool :=
  hasSubstr needle.toList hay.toList

/-- The filtering predicate of `DeviceInfoView.get`: keeps a URL iff it
contains neither `"127.0.0.1"` nor `"localhost"`. -/
def nonLocalUrl (url : String) : Bool :=
  !(strContains url "127.0.0.1") && !(strContains url "localhost")

/-- The urls computation of `DeviceInfoView.get`: `urls0` is what
`get_urls()` returned, `absolute_uri` is
`request.build_absolute_uri(OPTIONS["Deployment"]["URL_PATH_PREFIX"])`.
When `get_urls` yields nothing the request URL is substituted; the
loopback filter is applied only when it leaves something. -/
def computeUrls (urls0 : List String) (absolute_uri : String) : List String :=
  let urls := if urls0.isEmpty then [absolute_uri] else urls0
  let filtered := urls.filter nonLocalUrl
  if filtered.isEmpty then urls else filtered

/-- The `database_path` entry of `DeviceInfoView.get`, from the database
engine string and the database NAME setting. -/
def database_path (engine nm : String) : String :=
  if engine.endsWith "sqlite3" then nm
  else if engine.endsWith "postgresql" then "postgresql"
  else "unknown"

/-- The `"{major}.{minor}.{micro}"` formatting of `python_version`. -/
def python_version_string (major minor micro : Nat) : String :=
  toString major ++ "." ++ toString minor ++ "." ++ toString micro

/-- A value in the `info` dict of `DeviceInfoView.get`. -/
inductive InfoValue where
  | str (s : String)
  | strs (l : List String)
  | int (i : Int)
  deriving DecidableEq, Repr

/-- Everything `DeviceInfoView.get` consults: the Kolibri version, the
result of `get_urls()`, the request URL, the database settings, the
morango instance record, `get_free_space(OPTIONS["Paths"]["CONTENT_DIR"])`,
`local_now()`, `settings.TIME_ZONE`, `installation_type()` and the Python
`version_info` triple. -/
structure ServerState where
  kolibri_version : String
  get_urls : List String
  absolute_uri : String
  db_engine : String
  db_name : String
  instance_id : String
  instance_platform : String
  content_free_space : Int
  server_time : String
  time_zone : String
  installer : String
  py_major : Nat
  py_minor : Nat
  py_micro : Nat
  deriving DecidableEq, Repr

/-- The `info` dict as built by `DeviceInfoView.get` before the
superuser check, in insertion order. -/
def deviceInfoFull (st : ServerState) : List (String × InfoValue) :=
  [("version", .str st.kolibri_version),
   ("urls", .strs (computeUrls st.get_urls st.absolute_uri)),
   ("database_path", .str (database_path st.db_engine st.db_name)),
   ("device_id", .str st.instance_id),
   ("os", .str st.instance_platform),
   ("content_storage_free_space", .int st.content_free_space),
   ("server_time", .str st.server_time),
   ("server_timezone", .str st.time_zone),
   ("installer", .str st.installer),
   ("python_version", .str (python_version_string st.py_major st.py_minor st.py_micro))]

/-- The `keys_to_remove` list deleted from `info` for non-superusers. -/
def keys_to_remove : List String :=
  ["urls", "database_path", "device_id", "os", "server_time",
   "server_timezone", "installer", "python_version"]

/-- `DeviceInfoView.get`: builds the full `info` dict and, when the
requesting user is not a superuser, deletes `keys_to_remove` from it
(Python dicts preserve the insertion order of the remaining keys). -/
def DeviceInfoView.get (st : ServerState) (is_superuser : Bool) :
    List (String × InfoValue) :=
  let info := deviceInfoFull st
  if is_superuser then info
  else info.filter fun kv => !(keys_to_remove.contains kv.1)

/-- C3: on an invalid serializer run, `DeviceSettingsView.patch` returns
HTTP 400 carrying the serializer errors and leaves the stored record
untouched; on a valid run it saves and returns the serialized data. -/
theorem C3_device_settings_patch {ρ ε δ : Type}
    (run : SerializerRun (DeviceSettings ρ) ε δ) (stored : DeviceSettings ρ) :
    (run.valid = false →
      DeviceSettingsView.patch run stored = (.badRequest run.errors, stored)) ∧
    (run.valid = true →
      DeviceSettingsView.patch run stored = (.response 200 run.data, run.saved)) := by
  constructor <;> intro h <;> simp [DeviceSettingsView.patch, h]

/-- C3 witness: a concrete invalid run returns 400 with the errors and the
original stored record. -/
theorem C3_witness :
    DeviceSettingsView.patch
        ({ valid := false, errors := "err", saved := ⟨"x", ()⟩, data := 7 }
          : SerializerRun (DeviceSettings Unit) String Nat)
        ⟨"orig", ()⟩
      = (.badRequest "err", ⟨"orig", ()⟩) :=
  (C3_device_settings_patch
    ({ valid := false, errors := "err", saved := ⟨"x", ()⟩, data := 7 }
      : SerializerRun (DeviceSettings Unit) String Nat) ⟨"orig", ()⟩).1 rfl

/-- C4: `DeviceProvisionView.create` returns HTTP 201 with the serialized
saved data on a valid payload; on an invalid payload it raises the
validation error, and the outcome is then independent of the save
function and of the store, so nothing is saved. -/
theorem C4_provision_create {ε σ α δ : Type} (v : Bool) (e : ε)
    (save : σ → σ × α) (serialize : α → δ) (st : σ) :
    (v = true → DeviceProvisionView.create v e save serialize st
        = .ok (.response 201 (serialize (save st).2), (save st).1)) ∧
    (v = false → DeviceProvisionView.create v e save serialize st = .error e) ∧
    (v = false → ∀ (save2 : σ → σ × α) (st2 : σ),
      DeviceProvisionView.create v e save serialize st
        = DeviceProvisionView.create v e save2 serialize st2) := by
  refine ⟨fun h => ?_, fun h => ?_, fun h save2 st2 => ?_⟩ <;>
    simp [DeviceProvisionView.create, h]

/-- C4 witness: a concrete valid payload is saved and serialized into a
201 response. -/
theorem C4_witness :
    DeviceProvisionView.create true "invalid" (fun n => (n + 1, n))
        (fun a => a * 2) (5 : Nat)
      = .ok (.response 201 (10 : Nat), (6 : Nat)) :=
  (C4_provision_create true "invalid" (fun n => (n + 1, n)) (fun a => a * 2) 5).1 rfl

/-- C5: `FreeSpaceView.list` reports the default location's free space when
the path parameter is absent, the content directory's free space when it is
the literal "Content", and the given path's free space otherwise, always as
a single-key freespace body. -/
theorem C5_free_space_list (g : Option String → Int) (cd : String) :
    FreeSpaceView.list g cd none = [("freespace", g none)] ∧
    FreeSpaceView.list g cd (some "Content") = [("freespace", g (some cd))] ∧
    (∀ p, p ≠ "Content" →
      FreeSpaceView.list g cd (some p) = [("freespace", g (some p))]) := by
  refine ⟨rfl, ?_, fun p hp => ?_⟩
  · simp [FreeSpaceView.list]
  · simp [FreeSpaceView.list, hp]

/-- C5 witness: the third clause evaluated at the concrete path "/tmp". -/
theorem C5_witness :
    FreeSpaceView.list
        (fun o => match o with | none => 5 | some p => (p.length : Int))
        "/data" (some "/tmp")
      = [("freespace", (4 : Int))] :=
  (C5_free_space_list
    (fun o => match o with | none => 5 | some p => (p.length : Int))
    "/data").2.2 "/tmp" (by decide)

/-- C6: `DeviceNameView.patch` assigns the request's "name" value to the
name field of the stored record, saves it, returns the name body, and
leaves every other field (`rest`) unchanged. -/
theorem C6_device_name_patch {ρ : Type} (stored : DeviceSettings ρ)
    (data : List (String × String)) (n : String)
    (h : List.lookup "name" data = some n) :
    DeviceNameView.patch stored data
        = .ok ([("name", n)], { stored with name := n }) ∧
    ({ stored with name := n } : DeviceSettings ρ).rest = stored.rest := by
  constructor
  · simp [DeviceNameView.patch, h]
  · rfl

/-- C6 witness: renaming a concrete record keeps its other fields. -/
theorem C6_witness :
    DeviceNameView.patch (⟨"old", ()⟩ : DeviceSettings Unit) [("name", "kolibri")]
        = .ok ([("name", "kolibri")], ⟨"kolibri", ()⟩) ∧
    (⟨"kolibri", ()⟩ : DeviceSettings Unit).rest
        = (⟨"old", ()⟩ : DeviceSettings Unit).rest :=
  C6_device_name_patch ⟨"old", ()⟩ [("name", "kolibri")] "kolibri" (by decide)

/-- C7: the GET handlers of `DeviceSettingsView` and `DeviceNameView`
return, respectively, the serialized settings and the name projection of
the stored record, leaving the store unchanged. -/
theorem C7_get_projections {ρ δ : Type} (serialize : DeviceSettings ρ → δ)
    (stored : DeviceSettings ρ) :
    DeviceSettingsView.get serialize stored
        = (.response 200 (serialize stored), stored) ∧
    DeviceNameView.get stored = ([("name", stored.name)], stored) :=
  ⟨rfl, rfl⟩

/-- C8: `UserSyncStatusViewSet.get_queryset` returns the empty queryset
exactly when the device is a subset-of-users device and no
`DynamicNetworkLocation` with `subset_of_users_device = False` exists;
otherwise it returns all `UserSyncStatus` records. -/
theorem C8_get_queryset_empty {α : Type} (b : Bool)
    (locations : List DynamicNetworkLocation) (all_statuses : List α) :
    (b = true → (locations.any fun l => l.subset_of_users_device == false) = false →
      UserSyncStatusViewSet.get_queryset b locations all_statuses = []) ∧
    ((b = false ∨ (locations.any fun l => l.subset_of_users_device == false) = true) →
      UserSyncStatusViewSet.get_queryset b locations all_statuses = all_statuses) ∧
    (all_statuses ≠ [] →
      (UserSyncStatusViewSet.get_queryset b locations all_statuses = []
        ↔ b = true ∧
          (locations.any fun l => l.subset_of_users_device == false) = false)) := by
  refine ⟨fun hb he => ?_, fun h => ?_, fun hne => ?_⟩
  · unfold UserSyncStatusViewSet.get_queryset
    rw [hb, he]
    rfl
  · unfold UserSyncStatusViewSet.get_queryset
    rcases h with h | h
    · rw [h]
      rfl
    · rw [h]
      cases b <;> rfl
  · constructor
    · intro hres
      unfold UserSyncStatusViewSet.get_queryset at hres
      cases hb : b
      · rw [hb] at hres
        exact absurd hres hne
      · cases he : (locations.any fun l => l.subset_of_users_device == false)
        · exact ⟨rfl, rfl⟩
        · rw [hb, he] at hres
          exact absurd hres hne
    · rintro ⟨hb, he⟩
      unfold UserSyncStatusViewSet.get_queryset
      rw [hb, he]
      rfl

/-- C8 witness: a subset-of-users device with only subset-of-users
locations yields the empty queryset. -/
theorem C8_witness :
    UserSyncStatusViewSet.get_queryset true
        [{ subset_of_users_device := true }] [(0 : Nat)] = [] :=
  (C8_get_queryset_empty true [{ subset_of_users_device := true }] [(0 : Nat)]).1
    rfl (by decide)

/-- Choosing between a list and its filtering, preferring the filtering
when it is non-empty, never yields the empty list if the base list is
non-empty. -/
lemma filter_branch_ne_nil (urls : List String) (hu : urls ≠ []) :
    (if (urls.filter nonLocalUrl).isEmpty then urls
      else urls.filter nonLocalUrl) ≠ [] := by
  split
  · exact hu
  · rename_i hf
    intro hc
    rw [hc] at hf
    exact hf rfl

/-- The urls computation never yields the empty list. -/
lemma computeUrls_ne_nil (gu : List String) (uri : String) :
    computeUrls gu uri ≠ [] := by
  show (if ((if gu.isEmpty then [uri] else gu).filter nonLocalUrl).isEmpty
      then (if gu.isEmpty then [uri] else gu)
      else (if gu.isEmpty then [uri] else gu).filter nonLocalUrl) ≠ []
  apply filter_branch_ne_nil
  split
  · exact List.cons_ne_nil uri []
  · rename_i hg
    intro hc
    rw [hc] at hg
    exact hg rfl

/-- When `get_urls()` yields nothing, the request URL alone is reported. -/
lemma computeUrls_nil (uri : String) : computeUrls [] uri = [uri] := by
  cases hn : nonLocalUrl uri <;> simp [computeUrls, List.filter, hn]

/-- When the loopback filter removes every URL, the unfiltered list is
kept. -/
lemma computeUrls_filter_nil (gu : List String) (uri : String)
    (h : gu.filter nonLocalUrl = []) :
    computeUrls gu uri = if gu.isEmpty then [uri] else gu := by
  cases gu with
  | nil => simp [computeUrls_nil]
  | cons g rest => simp [computeUrls, h]

/-- When some URL survives the loopback filter, the filtering is kept. -/
lemma computeUrls_filter_ne (gu : List String) (uri : String)
    (h : gu.filter nonLocalUrl ≠ []) :
    computeUrls gu uri = gu.filter nonLocalUrl := by
  cases gu with
  | nil => exact absurd rfl h
  | cons g rest =>
    show (if ((g :: rest).filter nonLocalUrl).isEmpty
        then (g :: rest) else (g :: rest).filter nonLocalUrl)
      = (g :: rest).filter nonLocalUrl
    cases hfe : (g :: rest).filter nonLocalUrl with
    | nil => exact absurd hfe h
    | cons a as => rfl

/-- C9: a non-superuser sees exactly the `version` and
`content_storage_free_space` keys, in this order; consequently any two
server states that agree on the Kolibri version and the content
directory's free space produce identical non-superuser responses. -/
theorem C9_device_info_non_superuser (st st2 : ServerState) :
    DeviceInfoView.get st false
        = [("version", .str st.kolibri_version),
           ("content_storage_free_space", .int st.content_free_space)] ∧
    (st.kolibri_version = st2.kolibri_version →
      st.content_free_space = st2.content_free_space →
      DeviceInfoView.get st false = DeviceInfoView.get st2 false) := by
  have h1 : ∀ s : ServerState, DeviceInfoView.get s false
      = [("version", .str s.kolibri_version),
         ("content_storage_free_space", .int s.content_free_space)] :=
    fun s => rfl
  refine ⟨h1 st, fun hv hf => ?_⟩
  rw [h1 st, h1 st2, hv, hf]

/-- C9 witness: two concrete states differing everywhere except version
and free space give the same non-superuser response. -/
theorem C9_witness :
    DeviceInfoView.get
        { kolibri_version := "0.14.7", get_urls := ["http://127.0.0.1:8080/"],
          absolute_uri := "http://box/", db_engine := "django.db.backends.sqlite3",
          db_name := "/home/db.sqlite3", instance_id := "abc",
          instance_platform := "linux", content_free_space := 42,
          server_time := "t1", time_zone := "UTC", installer := "deb",
          py_major := 3, py_minor := 9, py_micro := 1 } false
      = DeviceInfoView.get
        { kolibri_version := "0.14.7", get_urls := ["http://10.0.0.2/"],
          absolute_uri := "http://other/", db_engine := "django.db.backends.postgresql",
          db_name := "kolibri", instance_id := "zzz",
          instance_platform := "windows", content_free_space := 42,
          server_time := "t2", time_zone := "EST", installer := "whl",
          py_major := 3, py_minor := 10, py_micro := 2 } false :=
  (C9_device_info_non_superuser
    { kolibri_version := "0.14.7", get_urls := ["http://127.0.0.1:8080/"],
      absolute_uri := "http://box/", db_engine := "django.db.backends.sqlite3",
      db_name := "/home/db.sqlite3", instance_id := "abc",
      instance_platform := "linux", content_free_space := 42,
      server_time := "t1", time_zone := "UTC", installer := "deb",
      py_major := 3, py_minor := 9, py_micro := 1 }
    { kolibri_version := "0.14.7", get_urls := ["http://10.0.0.2/"],
      absolute_uri := "http://other/", db_engine := "django.db.backends.postgresql",
      db_name := "kolibri", instance_id := "zzz",
      instance_platform := "windows", content_free_space := 42,
      server_time := "t2", time_zone := "EST", installer := "whl",
      py_major := 3, py_minor := 10, py_micro := 2 }).2 rfl rfl

/-- C10: the urls entry of the superuser response is the urls computation,
which is never empty; when `get_urls()` yields nothing the request URL is
substituted, and loopback URLs are dropped exactly when some URL without
"127.0.0.1" or "localhost" survives the filter. -/
theorem C10_superuser_urls (st : ServerState) :
    List.lookup "urls" (DeviceInfoView.get st true)
        = some (.strs (computeUrls st.get_urls st.absolute_uri)) ∧
    computeUrls st.get_urls st.absolute_uri ≠ [] ∧
    (st.get_urls = [] →
      computeUrls st.get_urls st.absolute_uri = [st.absolute_uri]) ∧
    (∀ (gu : List String) (uri : String), gu.filter nonLocalUrl = [] →
      computeUrls gu uri = if gu.isEmpty then [uri] else gu) ∧
    (∀ (gu : List String) (uri : String), gu.filter nonLocalUrl ≠ [] →
      computeUrls gu uri = gu.filter nonLocalUrl) := by
  refine ⟨rfl, computeUrls_ne_nil _ _, fun h => ?_,
    computeUrls_filter_nil, computeUrls_filter_ne⟩
  rw [h, computeUrls_nil]

/-- C10 witness: a state whose `get_urls()` yielded nothing reports the
request URL alone. -/
theorem C10_witness :
    computeUrls ([] : List String) "http://box/" = ["http://box/"] :=
  (C10_superuser_urls
    { kolibri_version := "v", get_urls := [], absolute_uri := "http://box/",
      db_engine := "e", db_name := "n", instance_id := "i",
      instance_platform := "p", content_free_space := 1, server_time := "s",
      time_zone := "z", installer := "w",
      py_major := 3, py_minor := 9, py_micro := 0 }).2.2.1 rfl
